import Mathlib

/-
Verification development for the barq-notification repository
(single source file src/barqing.py).

The Python program is shallowly embedded below.  Pure data becomes Lean
structures; the stateful refresh loop of `Refresher.run` becomes explicit
state passing over `RefresherData`; the command handler `Bot._on_message`
becomes a function from a bot state and an incoming message to the new bot
state, the list of chat replies sent, and the list of refresher tasks
spawned.  Network responses are inputs: each API call site consumes one
(status, body) pair.  An uncaught Python exception (for example a KeyError
on a missing dictionary field) is modelled as a distinguished error result
that aborts the enclosing task.
-/

/-- Mirrors the constant NEWMSG = 0 of src/barqing.py. -/
def NEWMSG : Nat := 0

/-- Mirrors the dataclass Chat of src/barqing.py: a per-conversation dedup
record holding the conversation id and the last seen message id. -/
structure Chat where
  id : String
  last_msg : String
deriving DecidableEq

/-- The latest message of one conversation as reported by the conversations
query: fields id, content and the author profile fields id and displayName,
exactly the fields read by Refresher._do_refresh. -/
structure LastMessage where
  id : String
  profile_id : String
  profile_displayName : String
  content : String
deriving DecidableEq

/-- One element of d[data][chats] in Refresher._do_refresh: the conversation
id together with its latest message. -/
structure ChatEntry where
  id : String
  lastMessage : LastMessage
deriving DecidableEq

/-- The Python dict[str, Chat] stored in RefresherData.chats, modelled as an
association list with at most one binding per key in reachable states. -/
abbrev ChatMap := List (String × Chat)

/-- Dictionary lookup chats[chat_id] (as an Option). -/
def ChatMap.find : ChatMap → String → Option Chat
  | [], _ => none
  | (k0, c0) :: rest, k => if k0 = k then some c0 else ChatMap.find rest k

/-- Dictionary assignment chats[chat_id] = c: replaces the existing binding
in place, or appends a new one (Python dicts keep insertion order). -/
def ChatMap.set : ChatMap → String → Chat → ChatMap
  | [], k, c => [(k, c)]
  | (k0, c0) :: rest, k, c =>
    if k0 = k then (k0, c) :: rest else (k0, c0) :: ChatMap.set rest k c

/-- Mirrors the dataclass RefresherData of src/barqing.py: the per-user
session state (called UserSession in the specification).  update_data is
the Telegram chat id used as the notification destination. -/
structure RefresherData where
  chats : ChatMap
  auth : String
  running : Bool
  update_data : Int
  self_id : Option String := none
deriving DecidableEq

/-- One entry put on the update_queue by Refresher._do_refresh:
(update_data, NEWMSG, (sender display name, content)). -/
abbrev Notification := Int × Nat × String × String

/-- The body of the for-loop of Refresher._do_refresh (lines 68-83 of
src/barqing.py) for a single element of d[data][chats]: conditional insert
of an unseen conversation, then the diff against the stored baseline, the
in-place baseline update, the self-author filter, and the queue put.  The
getD default is dead code: the key is always present after the conditional
insert, mirroring the Python dict access chats[chat_id] that cannot fail
there. -/
def processChat (rd : RefresherData) (ce : ChatEntry) :
    RefresherData × List Notification :=
  let msg_id := ce.lastMessage.id
  let content := ce.lastMessage.content
  let chats0 := rd.chats
  let chats1 :=
    if (ChatMap.find chats0 ce.id).isNone then
      ChatMap.set chats0 ce.id { id := ce.id, last_msg := msg_id }
    else chats0
  let cur := (ChatMap.find chats1 ce.id).getD { id := ce.id, last_msg := msg_id }
  if cur.last_msg ≠ msg_id then
    let chats2 := ChatMap.set chats1 ce.id { id := cur.id, last_msg := msg_id }
    let sender := ce.lastMessage.profile_displayName
    if some ce.lastMessage.profile_id = rd.self_id then
      ({ rd with chats := chats2 }, [])
    else
      ({ rd with chats := chats2 },
       [(rd.update_data, NEWMSG, sender, content)])
  else
    ({ rd with chats := chats1 }, [])

/-- The whole for-loop of Refresher._do_refresh over d[data][chats],
collecting the queue puts in order. -/
def processChats : RefresherData → List ChatEntry → RefresherData × List Notification
  | rd, [] => (rd, [])
  | rd, ce :: rest =>
    let r := processChat rd ce
    let r2 := processChats r.1 rest
    (r2.1, r.2 ++ r2.2)

/-- The parsed body of a conversations-query response, at the granularity
Refresher._do_refresh inspects it: dict d models a JSON object, where the
argument is some chats when the d[data][chats] path is present and
well-formed and none when the object lacks the data field (so that the
subscript d[data] raises); nondict models any non-object body, including
the raw text fallback of Refresher._api when JSON parsing fails. -/
inductive Body
  | dict (data : Option (List ChatEntry))
  | nondict
deriving DecidableEq

/-- Outcome of one call to Refresher._do_refresh.  ok carries the session
state after the call, the queue puts made, and whether the failure branch
(the print of line 85) ran; keyError models the uncaught KeyError raised by
d[data] on a 200 object body lacking the data field, which propagates out
of _do_refresh and kills the refresher task. -/
inductive RefreshResult
  | ok (rd : RefresherData) (notifs : List Notification) (loggedFailure : Bool)
  | keyError
deriving DecidableEq

/-- Mirrors Refresher._do_refresh (lines 60-85 of src/barqing.py) given the
response (status, body) of the conversations query: the success guard is
status == 200 and isinstance(d, dict); anything else is printed and the
cycle ends with the state unchanged. -/
def doRefresh (rd : RefresherData) (status : Nat) (body : Body) : RefreshResult :=
  if status = 200 then
    match body with
    | Body.dict (some chats) =>
      let r := processChats rd chats
      RefreshResult.ok r.1 r.2 false
    | Body.dict none => RefreshResult.keyError
    | Body.nondict => RefreshResult.ok rd [] true
  else RefreshResult.ok rd [] true

/-- Which of the two logical remote-API queries a step of Refresher.run
issues. -/
inductive QueryKind
  | identity
  | conversations
deriving DecidableEq

/-- The response the conversations query would return on one tick of the
while-loop of Refresher.run. -/
structure TickInput where
  status : Nat
  body : Body
deriving DecidableEq

/-- One iteration of the while-loop of Refresher.run (lines 46-49 of
src/barqing.py): if data.running, perform a refresh (issuing one
conversations query), else do nothing for this tick.  Returns the session
state after the tick (none when the refresh raised and the task died), the
queue puts, and the queries issued. -/
def tick (rd : RefresherData) (t : TickInput) :
    Option RefresherData × List Notification × List QueryKind :=
  if rd.running then
    match doRefresh rd t.status t.body with
    | RefreshResult.ok rd2 ns _ => (some rd2, ns, [QueryKind.conversations])
    | RefreshResult.keyError => (none, [], [QueryKind.conversations])
  else (some rd, [], [])

/-- Finitely many iterations of the while-loop of Refresher.run, consuming
one TickInput per iteration; stops early when a tick raised. -/
def runTicks : RefresherData → List TickInput →
    Option RefresherData × List Notification × List QueryKind
  | rd, [] => (some rd, [], [])
  | rd, t :: rest =>
    let r := tick rd t
    match r.1 with
    | some rd1 =>
      let r2 := runTicks rd1 rest
      (r2.1, r.2.1 ++ r2.2.1, r.2.2 ++ r2.2.2)
    | none => r

/-- The parsed body of an identity-query response, at the granularity
Refresher.run inspects it: dict models a JSON object, carrying some pid
when the d[data][user][profile][id] path is present (pid the caller's own
id) and none when the path is missing (so the subscript raises); nondict
models any non-object body. -/
inductive IdBody
  | dict (pid : Option String)
  | nondict
deriving DecidableEq

/-- The identity-resolution step at the top of Refresher.run (lines 38-44
of src/barqing.py), given the identity-query response: on a 200 object body
the id path is read (raising, hence none, when it is missing); any other
response is printed and the session proceeds with self_id unchanged. -/
def resolveSelf (rd : RefresherData) (status : Nat) (b : IdBody) :
    Option RefresherData :=
  if status = 200 then
    match b with
    | IdBody.dict (some pid) => some { rd with self_id := some pid }
    | IdBody.dict none => none
    | IdBody.nondict => some rd
  else some rd

/-- Python truthiness of the Optional[str] field self_id, as tested by
the guard `if not self.data.self_id` in Refresher.run: falsy when None or
the empty string. -/
def pyFalsyOptStr : Option String → Bool
  | none => true
  | some s => s = ""

/-- Mirrors Refresher.run (lines 34-49 of src/barqing.py) driven for
finitely many ticks: when self_id is falsy, one identity query is issued
and resolved before the loop; then the while-loop consumes the tick inputs.
Returns the final session state (none when an uncaught error killed the
task), the queue puts, and the queries issued in order. -/
def runRefresher (rd : RefresherData) (idStatus : Nat) (idBody : IdBody)
    (ticks : List TickInput) :
    Option RefresherData × List Notification × List QueryKind :=
  if pyFalsyOptStr rd.self_id then
    match resolveSelf rd idStatus idBody with
    | none => (none, [], [QueryKind.identity])
    | some rd1 =>
      let r := runTicks rd1 ticks
      (r.1, r.2.1, QueryKind.identity :: r.2.2)
  else
    runTicks rd ticks

/-- The three reply texts Bot._on_message can send, as abstract constants:
receivingMessages stands for the literal reply of lines 127 and 137,
notReceivingAnymore for the reply of line 142, and notLoggedIn for the
not-logged-in reply of lines 129 and 144 of src/barqing.py. -/
inductive Reply
  | receivingMessages
  | notReceivingAnymore
  | notLoggedIn
deriving DecidableEq

/-- The Python dict[int, Refresher] held in Bot._refreshers, modelled as an
association list from the Telegram chat id to the refresher's session
state (the only component of a Refresher the commands touch). -/
abbrev RefMap := List (Int × RefresherData)

/-- Dictionary membership / lookup on Bot._refreshers. -/
def RefMap.find : RefMap → Int → Option RefresherData
  | [], _ => none
  | (k0, r0) :: rest, k => if k0 = k then some r0 else RefMap.find rest k

/-- Dictionary assignment refreshers[chat_id] = rd. -/
def RefMap.set : RefMap → Int → RefresherData → RefMap
  | [], k, rd => [(k, rd)]
  | (k0, r0) :: rest, k, rd =>
    if k0 = k then (k0, rd) :: rest else (k0, r0) :: RefMap.set rest k rd

/-- The in-place mutation refreshers[chat_id].data.running = b performed by
the start and stop handlers; entries under other keys are untouched, and a
missing key leaves the map unchanged (the handlers only reach this under a
membership check). -/
def RefMap.setRunning : RefMap → Int → Bool → RefMap
  | [], _, _ => []
  | (k0, r0) :: rest, k, b =>
    if k0 = k then (k0, { r0 with running := b }) :: rest
    else (k0, r0) :: RefMap.setRunning rest k b

/-- The top-level string-keyed session records of the shelve database:
the entries db[str(chat_id)] = data written by the login handler. -/
abbrev DbEntries := List (String × RefresherData)

/-- Dictionary assignment on the top-level shelve entries. -/
def DbEntries.set : DbEntries → String → RefresherData → DbEntries
  | [], k, rd => [(k, rd)]
  | (k0, r0) :: rest, k, rd =>
    if k0 = k then (k0, rd) :: rest else (k0, r0) :: DbEntries.set rest k rd

/-- The shelve database, partitioned by the two key shapes the program
uses: refreshers is the value of the reserved key named refreshers (none
when that key is absent), a map whose values Bot.__init__ iterates at
startup; entries are the records stored under str(chat_id) keys by the
login handler.  The literal key of the reserved entry never collides with
a str(chat_id) key, so the partition is faithful. -/
structure Db where
  refreshers : Option (List (String × RefresherData))
  entries : DbEntries
deriving DecidableEq

/-- The in-memory state of the Bot that command handling touches: the
database handle and the refreshers map. -/
structure BotState where
  db : Db
  refreshers : RefMap
deriving DecidableEq

/-- Mirrors Bot.__init__ (lines 88-101 of src/barqing.py): create the
reserved refreshers entry when absent, then build the in-memory refreshers
map from the values stored under it, keyed by their update_data.  (The
source subscripts each stored value as refdata[update_data], which would
raise on a dataclass value; the loop body is dead in every reachable state
because nothing ever writes into the reserved entry, so this keying is
faithful on reachable states.)  Top-level str(chat_id) entries are never
read here. -/
def botInit (db : Db) : BotState :=
  let db1 : Db :=
    if db.refreshers.isNone then { db with refreshers := some [] } else db
  let loaded : RefMap :=
    (db1.refreshers.getD []).map (fun p => (p.2.update_data, p.2))
  { db := db1, refreshers := loaded }

/-- Python str.split() with no argument, as used on msg.text: split on runs
of whitespace, discarding empty pieces. -/
def pySplitAux : List Char → List Char → List String
  | [], [] => []
  | [], acc => [String.mk acc.reverse]
  | c :: cs, acc =>
    if c.isWhitespace then
      match acc with
      | [] => pySplitAux cs []
      | _ => String.mk acc.reverse :: pySplitAux cs []
    else pySplitAux cs (c :: acc)

/-- Python msg.text.split(). -/
def pySplit (s : String) : List String := pySplitAux s.data []

/-- Python args[0].startswith applied to the slash character: the first
token is nonempty by construction, so this is a test on its first
character. -/
def startsWithSlash (s : String) : Bool :=
  match s.data with
  | [] => false
  | c :: _ => c = '/'

/-- The start-command branch of Bot._on_message (lines 124-129 of
src/barqing.py): with a session, set its running flag and reply
receivingMessages; without one, reply notLoggedIn. -/
def handleStart (st : BotState) (chat_id : Int) :
    BotState × List Reply × List Int :=
  match RefMap.find st.refreshers chat_id with
  | some _ =>
    ({ st with refreshers := RefMap.setRunning st.refreshers chat_id true },
     [Reply.receivingMessages], [])
  | none => (st, [Reply.notLoggedIn], [])

/-- The login-command branch of Bot._on_message (lines 130-137 of
src/barqing.py) for a two-token command: with no session yet, build a fresh
RefresherData (empty chats, running, the credential, the chat id as
destination), store it in the database under str(chat_id), register it in
the refreshers map, spawn its task (recorded in the third component) and
reply; with an existing session, do nothing and send no reply. -/
def handleLogin (st : BotState) (chat_id : Int) (cred : String) :
    BotState × List Reply × List Int :=
  match RefMap.find st.refreshers chat_id with
  | none =>
    let d : RefresherData :=
      { chats := [], auth := cred, running := true, update_data := chat_id,
        self_id := none }
    ({ db := { st.db with
                entries := DbEntries.set st.db.entries (toString chat_id) d },
       refreshers := RefMap.set st.refreshers chat_id d },
     [Reply.receivingMessages], [chat_id])
  | some _ => (st, [], [])

/-- The stop-command branch of Bot._on_message (lines 139-144 of
src/barqing.py): with a session, clear its running flag and reply
notReceivingAnymore; without one, reply notLoggedIn. -/
def handleStop (st : BotState) (chat_id : Int) :
    BotState × List Reply × List Int :=
  match RefMap.find st.refreshers chat_id with
  | some _ =>
    ({ st with refreshers := RefMap.setRunning st.refreshers chat_id false },
     [Reply.notReceivingAnymore], [])
  | none => (st, [Reply.notLoggedIn], [])

/-- The three sequential command tests of Bot._on_message on the first
token (they are mutually exclusive since the token is compared against
three distinct literals); the login branch additionally requires exactly
two tokens.  State is threaded through in source order and the replies and
spawned tasks of the branches are concatenated in order. -/
def dispatchCommand (st : BotState) (chat_id : Int) (a0 : String)
    (rest : List String) : BotState × List Reply × List Int :=
  let r1 := if a0 = "/start" then handleStart st chat_id else (st, [], [])
  let r2 :=
    match rest with
    | [cred] =>
      if a0 = "/login" then handleLogin r1.1 chat_id cred else (r1.1, [], [])
    | _ => (r1.1, [], [])
  let r3 := if a0 = "/stop" then handleStop r2.1 chat_id else (r2.1, [], [])
  (r3.1, r1.2.1 ++ r2.2.1 ++ r3.2.1, r1.2.2 ++ r2.2.2 ++ r3.2.2)

/-- Mirrors Bot._on_message (lines 119-144 of src/barqing.py) for one
incoming Telegram message: a missing or empty text returns immediately; a
nonempty all-whitespace text makes args[0] raise IndexError (modelled as
none); a first token not starting with the slash character returns; else
the command branches run.  Returns the new bot state, the replies sent,
and the chat ids whose refresher task was spawned. -/
def onMessage (st : BotState) (chat_id : Int) (text : Option String) :
    Option (BotState × List Reply × List Int) :=
  match text with
  | none => some (st, [], [])
  | some t =>
    if t = ("") then some (st, [], [])
    else
      match pySplit t with
      | [] => none
      | a0 :: rest =>
        if startsWithSlash a0 then some (dispatchCommand st chat_id a0 rest)
        else some (st, [], [])

/-- Sample stored dedup record: conversation c1 last seen at message m1. -/
def chatC1 : Chat := { id := "c1", last_msg := "m1" }

/-- Sample latest message m2 in conversation c1, authored by alice. -/
def msgM2 : LastMessage :=
  { id := "m2", profile_id := "alice", profile_displayName := "Alice",
    content := "hello" }

/-- Sample latest message m1 in conversation c1 (the stored baseline). -/
def msgM1 : LastMessage :=
  { id := "m1", profile_id := "alice", profile_displayName := "Alice",
    content := "old" }

/-- Sample conversations-query entry reporting m2 as latest in c1. -/
def ceM2 : ChatEntry := { id := "c1", lastMessage := msgM2 }

/-- Sample conversations-query entry reporting m1 as latest in c1. -/
def ceM1 : ChatEntry := { id := "c1", lastMessage := msgM1 }

/-- Sample session that has already seen c1 at baseline m1, with resolved
self id bob (not the author of m2). -/
def rdSeen : RefresherData :=
  { chats := [(("c1"), chatC1)], auth := "tok", running := true,
    update_data := 7, self_id := some ("bob") }

/-- Sample session that has already seen c1 at baseline m1, whose resolved
self id is alice (the author of m2). -/
def rdSeenSelf : RefresherData :=
  { chats := [(("c1"), chatC1)], auth := "tok", running := true,
    update_data := 7, self_id := some ("alice") }

/-- Sample fresh session with an empty conversation map and no self id. -/
def rdEmpty : RefresherData :=
  { chats := [], auth := "tok", running := true, update_data := 7,
    self_id := none }

/-- A failing conversations-query response: server error, unparsable body. -/
def tickFail : TickInput := { status := 500, body := Body.nondict }

/-- A 200 response whose object body lacks the data field. -/
def tickNoData : TickInput := { status := 200, body := Body.dict none }

/-- A successful conversations-query response reporting no conversations. -/
def tickEmptyOk : TickInput := { status := 200, body := Body.dict (some []) }

/-- Sample bot state with one logged-in session for chat id 7. -/
def stOne : BotState :=
  { db := { refreshers := some [], entries := [] },
    refreshers := [((7 : Int), rdSeen)] }

/-- Sample bot state with no sessions. -/
def stNone : BotState :=
  { db := { refreshers := some [], entries := [] }, refreshers := [] }

/-- The session record the login handler builds for chat id 5 and the
credential tok. -/
def loginData5 : RefresherData :=
  { chats := [], auth := "tok", running := true, update_data := 5,
    self_id := none }

/-- The database as it stands right after that login persisted its session
under the top-level key str(5). -/
def dbAfterLogin : Db :=
  { refreshers := some [], entries := [(("5"), loginData5)] }

/-- Helper: a dictionary lookup right after an assignment to the same key
returns the assigned value. -/
theorem ChatMap.find_set_self (m : ChatMap) (k : String) (c : Chat) :
    ChatMap.find (ChatMap.set m k c) k = some c := by
  induction m with
  | nil => simp [ChatMap.set, ChatMap.find]
  | cons p rest ih =>
    obtain ⟨k0, c0⟩ := p
    by_cases hk : k0 = k
    · simp [ChatMap.set, ChatMap.find, hk]
    · simp [ChatMap.set, ChatMap.find, hk, ih]

/-- Helper: the unseen branch of the diff loop inserts the reported latest
message id as the baseline and enqueues nothing. -/
theorem processChat_unseen (rd : RefresherData) (ce : ChatEntry)
    (hf : ChatMap.find rd.chats ce.id = none) :
    processChat rd ce =
      ({ rd with chats := ChatMap.set rd.chats ce.id { id := ce.id, last_msg := ce.lastMessage.id } }, []) := by
  simp [processChat, hf, ChatMap.find_set_self]

/-- Helper: a seen conversation whose reported latest id equals the stored
baseline is left untouched and enqueues nothing. -/
theorem processChat_seen_eq (rd : RefresherData) (ce : ChatEntry) (c : Chat)
    (hf : ChatMap.find rd.chats ce.id = some c)
    (he : c.last_msg = ce.lastMessage.id) :
    processChat rd ce = (rd, []) := by
  simp [processChat, hf, he]

/-- Helper: a seen conversation with a new latest id authored by the
session's self id has its baseline updated but enqueues nothing. -/
theorem processChat_seen_self (rd : RefresherData) (ce : ChatEntry) (c : Chat)
    (hf : ChatMap.find rd.chats ce.id = some c)
    (hne : c.last_msg ≠ ce.lastMessage.id)
    (hs : some ce.lastMessage.profile_id = rd.self_id) :
    processChat rd ce =
      ({ rd with chats := ChatMap.set rd.chats ce.id { id := c.id, last_msg := ce.lastMessage.id } }, []) := by
  simp [processChat, hf, hne, hs]

/-- Helper: a seen conversation with a new latest id not authored by the
session's self id has its baseline updated and enqueues exactly one
notification tuple. -/
theorem processChat_seen_notify (rd : RefresherData) (ce : ChatEntry) (c : Chat)
    (hf : ChatMap.find rd.chats ce.id = some c)
    (hne : c.last_msg ≠ ce.lastMessage.id)
    (hns : ¬ some ce.lastMessage.profile_id = rd.self_id) :
    processChat rd ce =
      ({ rd with chats := ChatMap.set rd.chats ce.id { id := c.id, last_msg := ce.lastMessage.id } },
       [(rd.update_data, NEWMSG, ce.lastMessage.profile_displayName,
         ce.lastMessage.content)]) := by
  simp [processChat, hf, hne, hns]

/-- Helper: after processing an entry, the stored baseline for that
conversation equals the entry's reported latest message id. -/
theorem processChat_find_after (rd : RefresherData) (ce : ChatEntry) :
    ∃ i, ChatMap.find (processChat rd ce).1.chats ce.id =
      some { id := i, last_msg := ce.lastMessage.id } := by
  cases hf : ChatMap.find rd.chats ce.id with
  | none =>
    refine ⟨ce.id, ?_⟩
    rw [processChat_unseen rd ce hf]
    simp [ChatMap.find_set_self]
  | some c =>
    by_cases he : c.last_msg = ce.lastMessage.id
    · refine ⟨c.id, ?_⟩
      rw [processChat_seen_eq rd ce c hf he]
      rw [hf]
      cases c
      simp_all
    · by_cases hs : some ce.lastMessage.profile_id = rd.self_id
      · refine ⟨c.id, ?_⟩
        rw [processChat_seen_self rd ce c hf he hs]
        simp [ChatMap.find_set_self]
      · refine ⟨c.id, ?_⟩
        rw [processChat_seen_notify rd ce c hf he hs]
        simp [ChatMap.find_set_self]

/-- Helper: processing a second entry for the same conversation with an
unchanged latest message id leaves the state unchanged and enqueues
nothing. -/
theorem processChat_stable (rd : RefresherData) (ce ce2 : ChatEntry)
    (hid : ce2.id = ce.id)
    (hmsg : ce2.lastMessage.id = ce.lastMessage.id) :
    processChat (processChat rd ce).1 ce2 = ((processChat rd ce).1, []) := by
  obtain ⟨i, hf⟩ := processChat_find_after rd ce
  refine processChat_seen_eq _ _ { id := i, last_msg := ce.lastMessage.id } ?_ ?_
  · rw [hid]; exact hf
  · simp [hmsg]

/-- Helper: a failing conversations-query response (bad status or
non-object body) takes the print branch and leaves the state unchanged. -/
theorem doRefresh_fail (rd : RefresherData) (status : Nat) (body : Body)
    (h : status ≠ 200 ∨ body = Body.nondict) :
    doRefresh rd status body = RefreshResult.ok rd [] true := by
  rcases h with h | h
  · simp [doRefresh, h]
  · subst h
    by_cases h2 : status = 200 <;> simp [doRefresh, h2]

/-- Helper: an inactive session consumes its tick without issuing a query,
without a diff and without enqueueing anything. -/
theorem tick_not_running (rd : RefresherData) (t : TickInput)
    (h : rd.running = false) : tick rd t = (some rd, [], []) := by
  simp [tick, h]

/-- Helper: a single tick never issues an identity query. -/
theorem tick_no_identity (rd : RefresherData) (t : TickInput) :
    QueryKind.identity ∉ (tick rd t).2.2 := by
  cases h : rd.running
  · simp [tick, h]
  · simp only [tick, h, if_true]
    cases doRefresh rd t.status t.body <;> simp

/-- Helper: the polling loop never issues an identity query; identity
resolution happens only in the prologue of Refresher.run. -/
theorem runTicks_no_identity (ticks : List TickInput) :
    ∀ rd : RefresherData, QueryKind.identity ∉ (runTicks rd ticks).2.2 := by
  induction ticks with
  | nil => intro rd; simp [runTicks]
  | cons t rest ih =>
    intro rd
    unfold runTicks
    cases htk : (tick rd t).1 with
    | none =>
      simp only [htk]
      exact tick_no_identity rd t
    | some rd1 =>
      simp only [htk, List.mem_append, not_or]
      exact ⟨tick_no_identity rd t, ih rd1⟩

/-- Helper: a failing identity-query response (bad status or non-object
body) takes the print branch and leaves the session unchanged. -/
theorem resolveSelf_fail (rd : RefresherData) (status : Nat) (b : IdBody)
    (h : status ≠ 200 ∨ b = IdBody.nondict) :
    resolveSelf rd status b = some rd := by
  rcases h with h | h
  · simp [resolveSelf, h]
  · subst h
    by_cases h2 : status = 200 <;> simp [resolveSelf, h2]

/-- Helper: a lookup after the in-place running-flag mutation on the same
key returns the stored session with only the flag changed. -/
theorem RefMap.find_setRunning_self (m : RefMap) (k : Int) (b : Bool)
    (rd : RefresherData) (h : RefMap.find m k = some rd) :
    RefMap.find (RefMap.setRunning m k b) k = some { rd with running := b } := by
  induction m with
  | nil => simp [RefMap.find] at h
  | cons p rest ih =>
    obtain ⟨k0, r0⟩ := p
    by_cases hk : k0 = k
    · simp only [RefMap.find, hk, if_true] at h
      simp [RefMap.setRunning, RefMap.find, hk, ← Option.some_inj.mp h]
    · simp only [RefMap.find, hk, if_false] at h
      simp [RefMap.setRunning, RefMap.find, hk, ih h]

/-- Helper: the in-place running-flag mutation touches no other key. -/
theorem RefMap.find_setRunning_ne (m : RefMap) (k k2 : Int) (b : Bool)
    (h : k2 ≠ k) :
    RefMap.find (RefMap.setRunning m k b) k2 = RefMap.find m k2 := by
  induction m with
  | nil => simp [RefMap.setRunning]
  | cons p rest ih =>
    obtain ⟨k0, r0⟩ := p
    by_cases hk : k0 = k
    · subst hk
      have hk2 : ¬ k0 = k2 := fun he => h he.symm
      simp [RefMap.setRunning, RefMap.find, hk2]
    · simp [RefMap.setRunning, RefMap.find, hk, ih]

/-- Helper: a stop command reduces to the stop branch. -/
theorem onMessage_stop_eq (st : BotState) (cid : Int) :
    onMessage st cid (some ("/stop")) = some (handleStop st cid) := rfl

/-- Helper: a start command reduces to the dispatcher on the start token. -/
theorem onMessage_start_eq (st : BotState) (cid : Int) :
    onMessage st cid (some ("/start")) =
      some (dispatchCommand st cid ("/start") []) := rfl

/-- C1: in a refresh cycle, a conversation already present in the session's
conversation map with baseline m1, reported with a latest message m2 whose
id differs from m1 and whose author id differs from the resolved self id,
has its baseline updated to m2's id and enqueues exactly the one
notification tuple (notify destination, NEW_MESSAGE, (sender display name,
content of m2)); the second conjunct states the same for a complete
successful cycle whose response reports exactly that conversation. -/
theorem new_message_enqueues_one_notification (rd : RefresherData)
    (ce : ChatEntry) (c : Chat) (sid : String)
    (hf : ChatMap.find rd.chats ce.id = some c)
    (hne : c.last_msg ≠ ce.lastMessage.id)
    (hs : rd.self_id = some sid)
    (hauthor : ce.lastMessage.profile_id ≠ sid) :
    processChat rd ce =
      ({ rd with chats := ChatMap.set rd.chats ce.id { id := c.id, last_msg := ce.lastMessage.id } },
       [(rd.update_data, NEWMSG, ce.lastMessage.profile_displayName,
         ce.lastMessage.content)]) ∧
    doRefresh rd 200 (Body.dict (some [ce])) =
      RefreshResult.ok
        { rd with chats := ChatMap.set rd.chats ce.id { id := c.id, last_msg := ce.lastMessage.id } }
        [(rd.update_data, NEWMSG, ce.lastMessage.profile_displayName,
          ce.lastMessage.content)] false := by
  have hns : ¬ some ce.lastMessage.profile_id = rd.self_id := by
    rw [hs]; simp [hauthor]
  have h1 := processChat_seen_notify rd ce c hf hne hns
  refine ⟨h1, ?_⟩
  simp [doRefresh, processChats, h1]

/-- C1 witness. -/
theorem new_message_enqueues_one_notification_witness :
    processChat rdSeen ceM2 =
      ({ rdSeen with chats := ChatMap.set rdSeen.chats ceM2.id { id := chatC1.id, last_msg := ceM2.lastMessage.id } },
       [(rdSeen.update_data, NEWMSG, ceM2.lastMessage.profile_displayName,
         ceM2.lastMessage.content)]) ∧
    doRefresh rdSeen 200 (Body.dict (some [ceM2])) =
      RefreshResult.ok
        { rdSeen with chats := ChatMap.set rdSeen.chats ceM2.id { id := chatC1.id, last_msg := ceM2.lastMessage.id } }
        [(rdSeen.update_data, NEWMSG, ceM2.lastMessage.profile_displayName,
          ceM2.lastMessage.content)] false :=
  new_message_enqueues_one_notification rdSeen ceM2 chatC1 ("bob")
    (by decide) (by decide) (by decide) (by decide)

/-- C2: a conversation not yet in the session's conversation map gets its
reported latest message id recorded as the baseline and produces zero
notifications, regardless of the latest message's content or author. -/
theorem first_observation_no_notification (rd : RefresherData)
    (ce : ChatEntry) (hf : ChatMap.find rd.chats ce.id = none) :
    processChat rd ce =
      ({ rd with chats := ChatMap.set rd.chats ce.id { id := ce.id, last_msg := ce.lastMessage.id } }, []) :=
  processChat_unseen rd ce hf

/-- C2 witness. -/
theorem first_observation_no_notification_witness :
    processChat rdEmpty ceM2 =
      ({ rdEmpty with chats := ChatMap.set rdEmpty.chats ceM2.id { id := ceM2.id, last_msg := ceM2.lastMessage.id } }, []) :=
  first_observation_no_notification rdEmpty ceM2 (by decide)

/-- C3: a seen conversation whose reported latest message id equals the
stored baseline produces zero notifications and its baseline (indeed the
whole session state) is unchanged; in particular polling any conversation
twice with an unchanged latest-message id produces zero notifications and
no state change on the second poll. -/
theorem unchanged_baseline_idempotent (rd : RefresherData) (ce : ChatEntry)
    (c : Chat) (hf : ChatMap.find rd.chats ce.id = some c)
    (he : c.last_msg = ce.lastMessage.id) :
    processChat rd ce = (rd, []) ∧
    ∀ rd2 : RefresherData, ∀ ce2 : ChatEntry,
      processChat (processChat rd2 ce2).1 ce2 = ((processChat rd2 ce2).1, []) := by
  refine ⟨processChat_seen_eq rd ce c hf he, ?_⟩
  intro rd2 ce2
  exact processChat_stable rd2 ce2 ce2 rfl rfl

/-- C3 witness. -/
theorem unchanged_baseline_idempotent_witness :
    processChat rdSeen ceM1 = (rdSeen, []) ∧
    processChat (processChat rdEmpty ceM2).1 ceM2 =
      ((processChat rdEmpty ceM2).1, []) :=
  ⟨(unchanged_baseline_idempotent rdSeen ceM1 chatC1 (by decide) (by decide)).1,
   (unchanged_baseline_idempotent rdSeen ceM1 chatC1 (by decide) (by decide)).2
     rdEmpty ceM2⟩

/-- C4: a seen conversation with a new latest message id whose author id
equals the resolved self id enqueues zero notifications. -/
theorem self_authored_no_notification (rd : RefresherData) (ce : ChatEntry)
    (c : Chat) (hf : ChatMap.find rd.chats ce.id = some c)
    (hne : c.last_msg ≠ ce.lastMessage.id)
    (hs : rd.self_id = some ce.lastMessage.profile_id) :
    processChat rd ce =
      ({ rd with chats := ChatMap.set rd.chats ce.id { id := c.id, last_msg := ce.lastMessage.id } }, []) :=
  processChat_seen_self rd ce c hf hne hs.symm

/-- C4 witness. -/
theorem self_authored_no_notification_witness :
    processChat rdSeenSelf ceM2 =
      ({ rdSeenSelf with chats := ChatMap.set rdSeenSelf.chats ceM2.id { id := chatC1.id, last_msg := ceM2.lastMessage.id } }, []) :=
  self_authored_no_notification rdSeenSelf ceM2 chatC1
    (by decide) (by decide) (by decide)

/-- C10: when a seen conversation's new latest message is self-authored,
the baseline is still updated to the new message id before the
notification is suppressed, so any later poll still reporting that same
message id produces zero notifications and no state change. -/
theorem self_authored_baseline_still_updated (rd : RefresherData)
    (ce : ChatEntry) (c : Chat)
    (hf : ChatMap.find rd.chats ce.id = some c)
    (hne : c.last_msg ≠ ce.lastMessage.id)
    (hs : rd.self_id = some ce.lastMessage.profile_id) :
    ChatMap.find (processChat rd ce).1.chats ce.id =
      some { id := c.id, last_msg := ce.lastMessage.id } ∧
    ∀ ce2 : ChatEntry, ce2.id = ce.id → ce2.lastMessage.id = ce.lastMessage.id →
      processChat (processChat rd ce).1 ce2 = ((processChat rd ce).1, []) := by
  constructor
  · rw [processChat_seen_self rd ce c hf hne hs.symm]
    simp [ChatMap.find_set_self]
  · intro ce2 hid hmsg
    exact processChat_stable rd ce ce2 hid hmsg

/-- C10 witness. -/
theorem self_authored_baseline_still_updated_witness :
    ChatMap.find (processChat rdSeenSelf ceM2).1.chats ceM2.id =
      some { id := chatC1.id, last_msg := ceM2.lastMessage.id } ∧
    processChat (processChat rdSeenSelf ceM2).1 ceM2 =
      ((processChat rdSeenSelf ceM2).1, []) :=
  ⟨(self_authored_baseline_still_updated rdSeenSelf ceM2 chatC1
      (by decide) (by decide) (by decide)).1,
   (self_authored_baseline_still_updated rdSeenSelf ceM2 chatC1
      (by decide) (by decide) (by decide)).2 ceM2 rfl rfl⟩

/-- C5 counterexample: the claim also counts a 200 object body lacking the
data field as a handled failure, but on that input Refresher._do_refresh
raises an uncaught KeyError at the subscript d[data] instead of logging
and keeping state: the cycle does not end in the log-and-keep-state
outcome, the refresher task dies, and the following tick never runs, so
the next tick does not retry.  The last conjunct shows the same following
tick does run (issuing its conversations query) when the bad response is
absent. -/
theorem missing_data_field_kills_refresher :
    doRefresh rdEmpty 200 (Body.dict none) = RefreshResult.keyError ∧
    RefreshResult.keyError ≠ RefreshResult.ok rdEmpty [] true ∧
    runTicks rdEmpty [tickNoData, tickEmptyOk] =
      (none, [], [QueryKind.conversations]) ∧
    runTicks rdEmpty [tickEmptyOk] =
      (some rdEmpty, [], [QueryKind.conversations]) :=
  ⟨by decide, by decide, by decide, by decide⟩

/-- C5 (amended): for every conversations-query response with a
non-200-equivalent status or a non-object (unparsable) body, the refresh
cycle logs the failure and ends without mutating any session state and
without enqueueing anything, and the next tick retries unconditionally.
(A 200 response whose object body lacks the data field is not handled:
it raises an uncaught error that kills the refresher task.) -/
theorem api_failure_logged_state_unchanged (rd : RefresherData)
    (t : TickInput) (ts : List TickInput)
    (hfail : t.status ≠ 200 ∨ t.body = Body.nondict)
    (hrun : rd.running = true) :
    doRefresh rd t.status t.body = RefreshResult.ok rd [] true ∧
    tick rd t = (some rd, [], [QueryKind.conversations]) ∧
    runTicks rd (t :: ts) =
      ((runTicks rd ts).1, (runTicks rd ts).2.1,
        QueryKind.conversations :: (runTicks rd ts).2.2) := by
  have h1 := doRefresh_fail rd t.status t.body hfail
  have h2 : tick rd t = (some rd, [], [QueryKind.conversations]) := by
    simp [tick, hrun, h1]
  refine ⟨h1, h2, ?_⟩
  simp [runTicks, h2]

/-- C5 witness (for the amended statement). -/
theorem api_failure_logged_state_unchanged_witness :
    doRefresh rdEmpty tickFail.status tickFail.body =
      RefreshResult.ok rdEmpty [] true ∧
    tick rdEmpty tickFail = (some rdEmpty, [], [QueryKind.conversations]) ∧
    runTicks rdEmpty [tickFail] =
      ((runTicks rdEmpty []).1, (runTicks rdEmpty []).2.1,
        QueryKind.conversations :: (runTicks rdEmpty []).2.2) :=
  api_failure_logged_state_unchanged rdEmpty tickFail [] (by decide) (by decide)

/-- C7 counterexample: with an unresolved self id and a failing identity
query (status 500), a run that goes on to poll for two further ticks
issues exactly one identity query, at the start, and ends with self_id
still unresolved: resolution is never retried on a later tick,
contradicting the claim. -/
theorem failed_identity_resolution_never_retried :
    runRefresher rdEmpty 500 IdBody.nondict [tickEmptyOk, tickEmptyOk] =
      (some rdEmpty, [],
        [QueryKind.identity, QueryKind.conversations, QueryKind.conversations]) ∧
    rdEmpty.self_id = none :=
  ⟨by decide, rfl⟩

/-- C7 (amended): for every Refresher whose session has no resolved self
id, the identity query is attempted exactly once, before the first diff
cycle; if it fails, the session proceeds to poll without a self id and
resolution is never retried (the polling loop issues no identity query);
once resolution succeeds, subsequent polls never re-resolve. -/
theorem identity_resolved_once_before_polling (rd : RefresherData)
    (idStatus : Nat) (idBody : IdBody) (ticks : List TickInput)
    (h : rd.self_id = none) :
    (∃ qs, (runRefresher rd idStatus idBody ticks).2.2 =
        QueryKind.identity :: qs ∧ QueryKind.identity ∉ qs) ∧
    ((idStatus ≠ 200 ∨ idBody = IdBody.nondict) →
      runRefresher rd idStatus idBody ticks =
        ((runTicks rd ticks).1, (runTicks rd ticks).2.1,
          QueryKind.identity :: (runTicks rd ticks).2.2)) ∧
    (∀ rd2 : RefresherData, ∀ ts2 : List TickInput,
      QueryKind.identity ∉ (runTicks rd2 ts2).2.2) := by
  have hpy : pyFalsyOptStr rd.self_id = true := by rw [h]; rfl
  refine ⟨?_, ?_, ?_⟩
  · simp only [runRefresher, hpy, if_true]
    cases hres : resolveSelf rd idStatus idBody with
    | none => exact ⟨[], rfl, by simp⟩
    | some rd1 =>
      exact ⟨(runTicks rd1 ticks).2.2, rfl, runTicks_no_identity ticks rd1⟩
  · intro hfail
    have hres := resolveSelf_fail rd idStatus idBody hfail
    simp only [runRefresher, hpy, if_true, hres]
  · intro rd2 ts2
    exact runTicks_no_identity ts2 rd2

/-- C7 witness (for the amended statement). -/
theorem identity_resolved_once_before_polling_witness :
    runRefresher rdEmpty 500 IdBody.nondict [tickEmptyOk] =
      ((runTicks rdEmpty [tickEmptyOk]).1, (runTicks rdEmpty [tickEmptyOk]).2.1,
        QueryKind.identity :: (runTicks rdEmpty [tickEmptyOk]).2.2) ∧
    QueryKind.identity ∉ (runTicks rdEmpty [tickEmptyOk]).2.2 :=
  ⟨(identity_resolved_once_before_polling rdEmpty 500 IdBody.nondict
      [tickEmptyOk] rfl).2.1 (Or.inl (by decide)),
   (identity_resolved_once_before_polling rdEmpty 500 IdBody.nondict
      [tickEmptyOk] rfl).2.2 rdEmpty [tickEmptyOk]⟩

/-- C6: the login handler creates an active session with an empty
conversation map and immediately persists it, but under the top-level key
str(chat id); Bot.__init__ reconstructs sessions only from the reserved
refreshers entry, which the login handler never writes, so the freshly
persisted session is NOT among the sessions loaded at the next startup:
startup on the post-login database loads zero sessions.  This evaluates
the code at the failing input of the reported code bug. -/
theorem login_session_not_reloaded_at_startup :
    onMessage (botInit { refreshers := none, entries := [] }) 5
        (some ("/login tok")) =
      some ({ db := dbAfterLogin, refreshers := [((5 : Int), loginData5)] },
        [Reply.receivingMessages], [(5 : Int)]) ∧
    loginData5.running = true ∧
    loginData5.chats = [] ∧
    dbAfterLogin.entries = [(("5"), loginData5)] ∧
    (botInit dbAfterLogin).refreshers = [] :=
  ⟨by decide, rfl, rfl, rfl, by decide⟩

/-- C8: a stop command on an existing session changes only that session's
running flag: the database field of the bot state is untouched, the stored
session keeps its conversation map with all baselines, its credential and
its destination (only running flips), sessions under other keys are
untouched, and while inactive every tick performs no diff, issues no query
and enqueues nothing. -/
theorem stop_changes_only_active_flag (st : BotState) (chat_id : Int)
    (rd : RefresherData)
    (hf : RefMap.find st.refreshers chat_id = some rd) :
    onMessage st chat_id (some ("/stop")) =
      some ({ st with refreshers := RefMap.setRunning st.refreshers chat_id false },
        [Reply.notReceivingAnymore], []) ∧
    RefMap.find (RefMap.setRunning st.refreshers chat_id false) chat_id =
      some { rd with running := false } ∧
    (∀ k2 : Int, k2 ≠ chat_id →
      RefMap.find (RefMap.setRunning st.refreshers chat_id false) k2 =
        RefMap.find st.refreshers k2) ∧
    (∀ t : TickInput, tick { rd with running := false } t =
      (some { rd with running := false }, [], [])) := by
  refine ⟨?_, ?_, ?_, ?_⟩
  · rw [onMessage_stop_eq]
    simp [handleStop, hf]
  · exact RefMap.find_setRunning_self st.refreshers chat_id false rd hf
  · intro k2 hk
    exact RefMap.find_setRunning_ne st.refreshers chat_id k2 false hk
  · intro t
    exact tick_not_running _ t rfl

/-- C8 witness. -/
theorem stop_changes_only_active_flag_witness :
    onMessage stOne 7 (some ("/stop")) =
      some ({ stOne with refreshers := RefMap.setRunning stOne.refreshers 7 false },
        [Reply.notReceivingAnymore], []) ∧
    RefMap.find (RefMap.setRunning stOne.refreshers 7 false) 7 =
      some { rdSeen with running := false } ∧
    tick { rdSeen with running := false } tickEmptyOk =
      (some { rdSeen with running := false }, [], []) :=
  ⟨(stop_changes_only_active_flag stOne 7 rdSeen (by decide)).1,
   (stop_changes_only_active_flag stOne 7 rdSeen (by decide)).2.1,
   (stop_changes_only_active_flag stOne 7 rdSeen (by decide)).2.2.2 tickEmptyOk⟩

/-- C9: a start or stop command from a user with no session replies with
the not-logged-in response and causes no state change: the returned bot
state is the input state (no session created, none modified, database
untouched) and no task is spawned. -/
theorem no_session_start_stop_rejected (st : BotState) (chat_id : Int)
    (hf : RefMap.find st.refreshers chat_id = none) :
    onMessage st chat_id (some ("/start")) =
      some (st, [Reply.notLoggedIn], []) ∧
    onMessage st chat_id (some ("/stop")) =
      some (st, [Reply.notLoggedIn], []) := by
  constructor
  · rw [onMessage_start_eq]
    simp [dispatchCommand, handleStart, hf]
  · rw [onMessage_stop_eq]
    simp [handleStop, hf]

/-- C9 witness. -/
theorem no_session_start_stop_rejected_witness :
    onMessage stNone 7 (some ("/start")) =
      some (stNone, [Reply.notLoggedIn], []) ∧
    onMessage stNone 7 (some ("/stop")) =
      some (stNone, [Reply.notLoggedIn], []) :=
  no_session_start_stop_rejected stNone 7 (by decide)
